import Mathlib

/-!
# Verification of the Mobile-NVIS-Antennas poster scripts

Shallow embedding of the five poster-generating Python scripts
(`gen_nvis_20m_car_roof.py`, `gen_nvis_40m_car_roof.py`,
`gen_nvis_80_40_20m_triband.py`, `gen_nvis_80_40m_car_roof.py`,
`gen_nvis_80_40m_optimized.py`).

Each script computes geometry in memory, issues draw calls on a matplotlib
figure (pure in-memory state; no file-system or console effect), and then
performs exactly three observable I/O actions: one `fig.savefig(out, ...)`
call and two `print(...)` calls.  The embedding models

* the observable I/O trace of each script (`ioTrace`): the file write and
  the console prints, in source order;
* the figure/save parameters (`figw`, `figh`, `DPI`, the output path);
* the geometry helpers cited by the claims (`rect_loop_pts`, the box-face
  builders `draw_box`/`box3d`, `cylinder`, and the tube/polygon drawing
  helpers `draw_tube`/`tube`/`qpoly`), over exact reals, with `np.linspace`
  embedded as `linspace`.

Decimal literals of the Python source (0.08, 0.40, ...) are modelled as the
exact rationals they denote.
-/

open Real

/-- An observable I/O action of a script run: a file-system write to `path`,
or a console line. Draw calls and geometry computation perform no I/O and
therefore contribute no event. -/
inductive IOEvent where
  | fsWrite (path : String)
  | consolePrint (line : String)
deriving DecidableEq

/-- Is the event a file-system write? -/
def IOEvent.isFs : IOEvent → Bool
  | .fsWrite _ => true
  | .consolePrint _ => false

/-- Is the event a console print? -/
def IOEvent.isPrint : IOEvent → Bool
  | .fsWrite _ => false
  | .consolePrint _ => true

/-- The file-system writes of a trace, in order. -/
def writesOf (t : List IOEvent) : List IOEvent := t.filter IOEvent.isFs

/-- The console lines of a trace, in order. -/
def printsOf (t : List IOEvent) : List String :=
  t.filterMap fun e => match e with
    | .consolePrint s => some s
    | .fsWrite _ => none

/-- The I/O events strictly before the first file-system write. -/
def preWrite (t : List IOEvent) : List IOEvent :=
  t.takeWhile fun e => !e.isFs

/-- The I/O events strictly after the first file-system write. -/
def postWrite (t : List IOEvent) : List IOEvent :=
  (t.dropWhile fun e => !e.isFs).tail

/-- DPI = 200: every one of the five scripts sets `DPI = 200`. -/
def DPI : ℕ := 200

/-- The `figsize=(w, h)` and save parameters of a script's single
`fig.savefig(out, dpi=DPI, bbox_inches='tight', ...)` call. -/
structure SaveFig where
  path : String
  dpi : ℕ
  figw : ℕ
  figh : ℕ
deriving DecidableEq

/-- A run environment a script could in principle observe: command-line
arguments, standard input, and a configuration lookup.  None of the five
scripts reads any of these (no `sys.argv`, no `input()`, no `open()` for
reading anywhere in the sources). -/
structure RunInput where
  argv : List String
  stdin : String
  config : String → Option String

/-- The tail of every script after all geometry and draw calls: the single
`fig.savefig` (which may raise inside the plotting library) followed by the
two `print` statements.  No script contains `try`/`except`, so an error
from the save call propagates and the trace of the run is never produced. -/
def scriptTail (trace : List IOEvent) (save : Except String Unit) :
    Except String (List IOEvent) :=
  save.bind fun _ => .ok trace

/-- Source: `np.linspace(a, b, n)`: `n` evenly spaced samples from `a` to `b`
inclusive (`[a]` for `n = 1`, `[]` for `n = 0`). -/
noncomputable def linspace (a b : ℝ) (n : ℕ) : List ℝ :=
  (List.range n).map fun (i : ℕ) =>
    if n ≤ 1 then a else a + (b - a) * (i : ℝ) / ((n : ℝ) - 1)

/-- An item held by a 3D axes object: a polyline from `ax.plot(px, py, pz,
color, linewidth, alpha, zorder)` or a `Poly3DCollection` of faces. -/
inductive AxItem where
  | line (px py pz : List ℝ) (color : String) (lw alpha : ℝ) (zo : ℤ)
  | poly (faces : List (List (ℝ × ℝ × ℝ))) (fc ec : String) (alpha lw : ℝ)
      (zo : ℤ)

/-- The point arrays of a polyline item, if any. -/
def AxItem.linePts : AxItem → Option (List ℝ × List ℝ × List ℝ)
  | .line px py pz _ _ _ _ => some (px, py, pz)
  | .poly _ _ _ _ _ _ => none

/-- The faces of a polygon-collection item (empty for a polyline). -/
def AxItem.polyFaces : AxItem → List (List (ℝ × ℝ × ℝ))
  | .line _ _ _ _ _ _ _ => []
  | .poly fs _ _ _ _ _ => fs

/-- Source: `ax.plot(px, py, pz, color=c, linewidth=lw, alpha=al, zorder=zo)`:
appends one polyline to the axes and leaves everything else alone. -/
def axPlot (a : List AxItem) (px py pz : List ℝ) (c : String) (lw al : ℝ)
    (zo : ℤ) : List AxItem :=
  a ++ [.line px py pz c lw al zo]

/-- Source: `qpoly(a, v, fc, ec, al, lw, zo)` (gen_nvis_80_40m_optimized.py lines
46-49): wraps the vertex list `v` in a one-face `Poly3DCollection` and adds
it to the axes. -/
def qpoly (a : List AxItem) (v : List (ℝ × ℝ × ℝ)) (fc ec : String)
    (al lw : ℝ) (zo : ℤ) : List AxItem :=
  a ++ [.poly [v] fc ec al lw zo]

/-- Source: `tube(a, px, py, pz, c, lw, hc, al, zo)` (gen_nvis_80_40m_optimized.py
lines 40-44): one main plot call, plus a highlight plot call at
`lw * 0.4`, alpha 0.35, `zorder zo + 1` when `hc` is given. -/
def tube (a : List AxItem) (px py pz : List ℝ) (c : String) (lw : ℝ)
    (hc : Option String) (al : ℝ) (zo : ℤ) : List AxItem :=
  let a1 := axPlot a px py pz c lw al zo
  match hc with
  | none => a1
  | some h => axPlot a1 px py pz h (lw * 0.4) 0.35 (zo + 1)

/-- Source: `draw_tube(ax, px, py, pz, color, lw, hi_color, alpha, zo)`
(gen_nvis_20m_car_roof.py lines 50-55): one main plot call, plus a
highlight plot call at `lw * 0.45`, alpha 0.35, `zorder zo + 1` when
`hi_color` is given. -/
def draw_tube (a : List AxItem) (px py pz : List ℝ) (color : String)
    (lw : ℝ) (hi_color : Option String) (alpha : ℝ) (zo : ℤ) :
    List AxItem :=
  let a1 := axPlot a px py pz color lw alpha zo
  match hi_color with
  | none => a1
  | some h => axPlot a1 px py pz h (lw * 0.45) 0.35 (zo + 1)

/-- The six quadrilateral faces of the axis-aligned box centred at
`(cx, cy, cz)` with half-extents `(hw, hd, hh)`.  This face list appears
verbatim in both `draw_box` (gen_nvis_20m_car_roof.py lines 60-75) and
`box3d` (gen_nvis_80_40m_optimized.py lines 52-59). -/
def boxFaces (cx cy cz hw hd hh : ℝ) : List (List (ℝ × ℝ × ℝ)) :=
  [[(cx-hw, cy-hd, cz-hh), (cx+hw, cy-hd, cz-hh),
    (cx+hw, cy+hd, cz-hh), (cx-hw, cy+hd, cz-hh)],
   [(cx-hw, cy-hd, cz+hh), (cx+hw, cy-hd, cz+hh),
    (cx+hw, cy+hd, cz+hh), (cx-hw, cy+hd, cz+hh)],
   [(cx-hw, cy-hd, cz-hh), (cx+hw, cy-hd, cz-hh),
    (cx+hw, cy-hd, cz+hh), (cx-hw, cy-hd, cz+hh)],
   [(cx-hw, cy+hd, cz-hh), (cx+hw, cy+hd, cz-hh),
    (cx+hw, cy+hd, cz+hh), (cx-hw, cy+hd, cz+hh)],
   [(cx-hw, cy-hd, cz-hh), (cx-hw, cy+hd, cz-hh),
    (cx-hw, cy+hd, cz+hh), (cx-hw, cy-hd, cz+hh)],
   [(cx+hw, cy-hd, cz-hh), (cx+hw, cy+hd, cz-hh),
    (cx+hw, cy+hd, cz+hh), (cx+hw, cy-hd, cz+hh)]]

/-- Source: `box3d(a, cx, cy, cz, hw, hd, hh, cols, ec, al, zo)`
(gen_nvis_80_40m_optimized.py lines 51-61): `for face, fc_ in zip(fs,
cols): qpoly(a, face, fc_, ec=ec, al=al, zo=zo)` — one face added per
(face, colour) pair of the zip, at qpoly's default linewidth 1.0. -/
def box3d (a : List AxItem) (cx cy cz hw hd hh : ℝ) (cols : List String)
    (ec : String) (al : ℝ) (zo : ℤ) : List AxItem :=
  ((boxFaces cx cy cz hw hd hh).zip cols).foldl
    (fun st p => qpoly st p.1 p.2 ec al 1.0 zo) a

/-- Source: `draw_box(ax, cx, cy, cz, hw, hd, hh, colors, ec, alpha, zo)`
(gen_nvis_20m_car_roof.py lines 60-79): same zip of the six faces with the
colour list, each face added directly as a `Poly3DCollection` with
linewidth 1.2. -/
def draw_box (a : List AxItem) (cx cy cz hw hd hh : ℝ)
    (colors : List String) (ec : String) (alpha : ℝ) (zo : ℤ) :
    List AxItem :=
  ((boxFaces cx cy cz hw hd hh).zip colors).foldl
    (fun st p => st ++ [.poly [p.1] p.2 ec alpha 1.2 zo]) a

/-- Source: `cylinder(a, cx, cy, zb, zt, r, n, fc, ec, al, zo)`
(gen_nvis_80_40m_optimized.py lines 63-72 and gen_nvis_80_40m_car_roof.py
lines 69-79, identical): `th = np.linspace(0, 2*pi, n+1)`; one
quadrilateral side face per `i in range(n)` between angles `th[i]` and
`th[i+1]`, then one closed top cap over all of `th` at height `zt`. -/
noncomputable def cylinder (a : List AxItem) (cx cy zb zt r : ℝ) (n : ℕ)
    (fc ec : String) (al : ℝ) (zo : ℤ) : List AxItem :=
  let th := linspace 0 (2 * π) (n + 1)
  let a1 := (List.range n).foldl
    (fun st i =>
      qpoly st
        [(cx + r * Real.cos (th.getD i 0), cy + r * Real.sin (th.getD i 0), zb),
         (cx + r * Real.cos (th.getD (i+1) 0),
          cy + r * Real.sin (th.getD (i+1) 0), zb),
         (cx + r * Real.cos (th.getD (i+1) 0),
          cy + r * Real.sin (th.getD (i+1) 0), zt),
         (cx + r * Real.cos (th.getD i 0), cy + r * Real.sin (th.getD i 0), zt)]
        fc ec al 0.5 zo)
    a
  qpoly a1 (th.map fun t => (cx + r * Real.cos t, cy + r * Real.sin t, zt))
    fc ec al 1.0 (zo + 1)

/-- Source: `gap_len = 0.08` (gen_nvis_80_40m_optimized.py line 389): feed gap at
the +Y centre of the rectangular loop. -/
noncomputable def gap_len : ℝ := 0.08

/-- Source: `rect_loop_pts(lx, ly, rc, n_corner)` (gen_nvis_80_40m_optimized.py
lines 396-432): rectangular loop with rounded corners and a gap at the +Y
centre — two straight points to the front-right corner, then alternately a
corner arc of `n_corner` points and one straight point per side, closing
at the gap's left edge. -/
noncomputable def rect_loop_pts (lx ly rc : ℝ) (n_corner : ℕ) :
    List (ℝ × ℝ) :=
  [(gap_len / 2, ly), (lx - rc, ly)] ++
  ((linspace (π/2) 0 n_corner).map fun t =>
    (lx - rc + rc * Real.cos t, ly - rc + rc * Real.sin t)) ++
  [(lx, -ly + rc)] ++
  ((linspace 0 (-(π/2)) n_corner).map fun t =>
    (lx - rc + rc * Real.cos t, -ly + rc + rc * Real.sin t)) ++
  [(-lx + rc, -ly)] ++
  ((linspace (-(π/2)) (-π) n_corner).map fun t =>
    (-lx + rc + rc * Real.cos t, -ly + rc + rc * Real.sin t)) ++
  [(-lx, ly - rc)] ++
  ((linspace π (π/2) n_corner).map fun t =>
    (-lx + rc + rc * Real.cos t, ly - rc + rc * Real.sin t)) ++
  [(-gap_len / 2, ly)]

/-- The vertex `v` is a corner of the axis-aligned box centred at
`(cx, cy, cz)` with half-extents `(hw, hd, hh)`: each coordinate is the
centre plus or minus the corresponding half-extent. -/
def IsBoxCorner (cx cy cz hw hd hh : ℝ) (v : ℝ × ℝ × ℝ) : Prop :=
  (v.1 = cx - hw ∨ v.1 = cx + hw) ∧
  (v.2.1 = cy - hd ∨ v.2.1 = cy + hd) ∧
  (v.2.2 = cz - hh ∨ v.2.2 = cz + hh)

/-- The vertex `v` lies at XY-distance `r` from the axis point
`(cx, cy)`. -/
noncomputable def IsOnCircle (cx cy r : ℝ) (v : ℝ × ℝ × ℝ) : Prop :=
  Real.sqrt ((v.1 - cx) ^ 2 + (v.2.1 - cy) ^ 2) = r

/-- The `i`-th quadrilateral side face built inside `cylinder`, between
angles `th[i]` and `th[i+1]` of `th = np.linspace(0, 2*pi, n+1)`. -/
noncomputable def cylSideFace (cx cy zb zt r : ℝ) (n i : ℕ) :
    List (ℝ × ℝ × ℝ) :=
  let th := linspace 0 (2 * π) (n + 1)
  [(cx + r * Real.cos (th.getD i 0), cy + r * Real.sin (th.getD i 0), zb),
   (cx + r * Real.cos (th.getD (i+1) 0),
    cy + r * Real.sin (th.getD (i+1) 0), zb),
   (cx + r * Real.cos (th.getD (i+1) 0),
    cy + r * Real.sin (th.getD (i+1) 0), zt),
   (cx + r * Real.cos (th.getD i 0), cy + r * Real.sin (th.getD i 0), zt)]

/-- The closed top-cap polygon built inside `cylinder`, over all of
`th = np.linspace(0, 2*pi, n+1)` at height `zt`. -/
noncomputable def cylCapFace (cx cy zt r : ℝ) (n : ℕ) : List (ℝ × ℝ × ℝ) :=
  (linspace 0 (2 * π) (n + 1)).map fun t =>
    (cx + r * Real.cos t, cy + r * Real.sin t, zt)

/-- What the `cylinder` helper adds to the axes: exactly `n` side faces
plus one top cap; every side-face vertex on the radius-`r` circle around
`(cx, cy)` at height `zb` or `zt`; the cap a closed `(n+1)`-point polygon
at height `zt` on that circle whose first and last vertices coincide. -/
noncomputable def CylSpec (a : List AxItem) (cx cy zb zt r : ℝ) (n : ℕ)
    (fc ec : String) (al : ℝ) (zo : ℤ) : Prop :=
  ((cylinder a cx cy zb zt r n fc ec al zo).drop a.length).length = n + 1 ∧
  (∀ it ∈ ((cylinder a cx cy zb zt r n fc ec al zo).drop a.length).take n,
    ∀ f ∈ it.polyFaces, ∀ v ∈ f,
      IsOnCircle cx cy r v ∧ (v.2.2 = zb ∨ v.2.2 = zt)) ∧
  (((cylinder a cx cy zb zt r n fc ec al zo).drop a.length).drop n).length
      = 1 ∧
  (∀ it ∈ ((cylinder a cx cy zb zt r n fc ec al zo).drop a.length).drop n,
    ∀ f ∈ it.polyFaces,
      (∀ v ∈ f, IsOnCircle cx cy r v ∧ v.2.2 = zt) ∧
      f.length = n + 1 ∧ f.head? = f.getLast?)

/-- What `rect_loop_pts lx ly rc n_corner` returns: `6 + 4 * n_corner`
points, the first at `(gap_len/2, ly)` and the last at `(-gap_len/2, ly)`
(the gap at the +Y centre), all within the rectangle
`[-lx, lx] × [-ly, ly]`. -/
noncomputable def RectLoopSpec (lx ly rc : ℝ) (n_corner : ℕ) : Prop :=
  (rect_loop_pts lx ly rc n_corner).length = 6 + 4 * n_corner ∧
  (rect_loop_pts lx ly rc n_corner).head? = some (gap_len / 2, ly) ∧
  (rect_loop_pts lx ly rc n_corner).getLast? = some (-gap_len / 2, ly) ∧
  ∀ p ∈ rect_loop_pts lx ly rc n_corner,
    -lx ≤ p.1 ∧ p.1 ≤ lx ∧ -ly ≤ p.2 ∧ p.2 ≤ ly

namespace Gen20m

/-- Source: `out = r'C:\Users\Jakkrit\.local\bin\NVIS_20m_Car_Roof_3D.jpg'`
(gen_nvis_20m_car_roof.py line 587). -/
def out : String := "C:\\Users\\Jakkrit\\.local\\bin\\NVIS_20m_Car_Roof_3D.jpg"

/-- figure width in inches: `figsize=(42, 28)` (line 13). -/
def figw : ℕ := 42

/-- figure height in inches: `figsize=(42, 28)` (line 13). -/
def figh : ℕ := 28

/-- The single save call `fig.savefig(out, dpi=DPI, ...)` (line 588). -/
def saveCall : SaveFig := ⟨out, DPI, figw, figh⟩

/-- Source: `print(f'Saved: {out}')` (line 591). -/
def savedLine : String := "Saved: " ++ out

/-- Source: `print(f'Size: {42*DPI} x {28*DPI} px = {42}x{28} inches @ {DPI} DPI')`
(line 592). -/
def sizeLine : String :=
  "Size: " ++ toString (42 * DPI) ++ " x " ++ toString (28 * DPI) ++
  " px = " ++ toString 42 ++ "x" ++ toString 28 ++ " inches @ " ++
  toString DPI ++ " DPI"

/-- Observable I/O trace of a complete run: the one file write, then the
two status prints.  All earlier statements of the script are geometry
computation and draw calls, which perform no I/O. -/
def ioTrace : List IOEvent :=
  [.fsWrite out, .consolePrint savedLine, .consolePrint sizeLine]

/-- Source: `N_pts = 200` (line 33). -/
def N_pts : ℕ := 200

/-- Source: `R_loop = 0.40` (line 220): loop radius in metres. -/
noncomputable def R_loop : ℝ := 0.40

/-- Source: `gap_angle = 0.08` (line 224): capacitor gap half-angle. -/
noncomputable def gap_angle : ℝ := 0.08

/-- Source: `z_loop` (lines 88-225): `z_ground + car_h + 0.32 + standoff_h`
= -0.15 + 0.35 + 0.32 + 0.08. -/
noncomputable def z_loop : ℝ := -0.15 + 0.35 + 0.32 + 0.08

/-- Source: `theta_loop = np.linspace(pi/2 + gap_angle, pi/2 + 2*pi - gap_angle,
N_pts)` (lines 227-228). -/
noncomputable def theta_loop : List ℝ :=
  linspace (π / 2 + gap_angle) (π / 2 + 2 * π - gap_angle) N_pts

/-- Source: `lx = R_loop * np.cos(theta_loop)` (line 229). -/
noncomputable def loop_lx : List ℝ := theta_loop.map fun t => R_loop * Real.cos t

/-- Source: `ly = R_loop * np.sin(theta_loop)` (line 230). -/
noncomputable def loop_ly : List ℝ := theta_loop.map fun t => R_loop * Real.sin t

/-- Source: `lz = np.full_like(theta_loop, z_loop)` (line 231). -/
noncomputable def loop_lz : List ℝ := theta_loop.map fun _ => z_loop

/-- The main-loop coordinate arrays of a run, as a function of the
(unread) run environment. -/
noncomputable def runCoords (_i : RunInput) : List ℝ × List ℝ × List ℝ :=
  (loop_lx, loop_ly, loop_lz)

/-- The run as a function of the (unread) run environment. -/
def run (_i : RunInput) : List IOEvent × SaveFig := (ioTrace, saveCall)

/-- The run with the plotting library's save outcome made explicit. -/
def runE (save : Except String Unit) : Except String (List IOEvent) :=
  scriptTail ioTrace save

end Gen20m

namespace Gen40m

/-- Source: `out = r'C:\Users\Jakkrit\.local\bin\NVIS_40m_Car_Roof_3D.jpg'`
(gen_nvis_40m_car_roof.py line 873). -/
def out : String := "C:\\Users\\Jakkrit\\.local\\bin\\NVIS_40m_Car_Roof_3D.jpg"

/-- figure width in inches: `figsize=(44, 30)` (line 15). -/
def figw : ℕ := 44

/-- figure height in inches: `figsize=(44, 30)` (line 15). -/
def figh : ℕ := 30

/-- The single save call `fig.savefig(out, dpi=DPI, ...)` (line 874). -/
def saveCall : SaveFig := ⟨out, DPI, figw, figh⟩

/-- Source: `print(f'Saved: {out}')` (line 877). -/
def savedLine : String := "Saved: " ++ out

/-- Source: `print(f'Size: {44*DPI} x {30*DPI} px  =  {44}x{30} in @ {DPI} DPI')`
(line 878). -/
def sizeLine : String :=
  "Size: " ++ toString (44 * DPI) ++ " x " ++ toString (30 * DPI) ++
  " px  =  " ++ toString 44 ++ "x" ++ toString 30 ++ " in @ " ++
  toString DPI ++ " DPI"

/-- Observable I/O trace of a complete run. -/
def ioTrace : List IOEvent :=
  [.fsWrite out, .consolePrint savedLine, .consolePrint sizeLine]

/-- The run as a function of the (unread) run environment. -/
def run (_i : RunInput) : List IOEvent × SaveFig := (ioTrace, saveCall)

/-- The run with the plotting library's save outcome made explicit. -/
def runE (save : Except String Unit) : Except String (List IOEvent) :=
  scriptTail ioTrace save

end Gen40m

namespace GenTriband

/-- Source: `out = r'C:\Users\Jakkrit\.local\bin\NVIS_80_40_20m_Triband_Sedan_3D.jpg'`
(gen_nvis_80_40_20m_triband.py line 974). -/
def out : String :=
  "C:\\Users\\Jakkrit\\.local\\bin\\NVIS_80_40_20m_Triband_Sedan_3D.jpg"

/-- figure width in inches: `figsize=(48, 34)` (line 21). -/
def figw : ℕ := 48

/-- figure height in inches: `figsize=(48, 34)` (line 21). -/
def figh : ℕ := 34

/-- The single save call `fig.savefig(out, dpi=DPI, ...)` (line 975). -/
def saveCall : SaveFig := ⟨out, DPI, figw, figh⟩

/-- Source: `print(f'Saved: {out}')` (line 978). -/
def savedLine : String := "Saved: " ++ out

/-- Source: `print(f'Size: {48*DPI} x {34*DPI} px = {48}x{34} in @ {DPI} DPI')`
(line 979). -/
def sizeLine : String :=
  "Size: " ++ toString (48 * DPI) ++ " x " ++ toString (34 * DPI) ++
  " px = " ++ toString 48 ++ "x" ++ toString 34 ++ " in @ " ++
  toString DPI ++ " DPI"

/-- Observable I/O trace of a complete run. -/
def ioTrace : List IOEvent :=
  [.fsWrite out, .consolePrint savedLine, .consolePrint sizeLine]

/-- The run as a function of the (unread) run environment. -/
def run (_i : RunInput) : List IOEvent × SaveFig := (ioTrace, saveCall)

/-- The run with the plotting library's save outcome made explicit. -/
def runE (save : Except String Unit) : Except String (List IOEvent) :=
  scriptTail ioTrace save

end GenTriband

namespace Gen8040

/-- Source: `out = r'C:\Users\Jakkrit\.local\bin\NVIS_80_40m_Car_Roof_3D.jpg'`
(gen_nvis_80_40m_car_roof.py line 915). -/
def out : String :=
  "C:\\Users\\Jakkrit\\.local\\bin\\NVIS_80_40m_Car_Roof_3D.jpg"

/-- figure width in inches: `figsize=(48, 32)` (line 16). -/
def figw : ℕ := 48

/-- figure height in inches: `figsize=(48, 32)` (line 16). -/
def figh : ℕ := 32

/-- The single save call `fig.savefig(out, dpi=DPI, ...)` (line 916). -/
def saveCall : SaveFig := ⟨out, DPI, figw, figh⟩

/-- Source: `print(f'Saved: {out}')` (line 919). -/
def savedLine : String := "Saved: " ++ out

/-- Source: `print(f'Size: {48*DPI} x {32*DPI} px = {48}x{32} in @ {DPI} DPI')`
(line 920). -/
def sizeLine : String :=
  "Size: " ++ toString (48 * DPI) ++ " x " ++ toString (32 * DPI) ++
  " px = " ++ toString 48 ++ "x" ++ toString 32 ++ " in @ " ++
  toString DPI ++ " DPI"

/-- Observable I/O trace of a complete run. -/
def ioTrace : List IOEvent :=
  [.fsWrite out, .consolePrint savedLine, .consolePrint sizeLine]

/-- The run as a function of the (unread) run environment. -/
def run (_i : RunInput) : List IOEvent × SaveFig := (ioTrace, saveCall)

/-- The run with the plotting library's save outcome made explicit. -/
def runE (save : Except String Unit) : Except String (List IOEvent) :=
  scriptTail ioTrace save

end Gen8040

namespace GenOpt

/-- Source: `out = r'C:\Users\Jakkrit\.local\bin\NVIS_80_40m_Optimized_Sedan_3D.jpg'`
(gen_nvis_80_40m_optimized.py line 1039). -/
def out : String :=
  "C:\\Users\\Jakkrit\\.local\\bin\\NVIS_80_40m_Optimized_Sedan_3D.jpg"

/-- figure width in inches: `figsize=(48, 34)` (line 20). -/
def figw : ℕ := 48

/-- figure height in inches: `figsize=(48, 34)` (line 20). -/
def figh : ℕ := 34

/-- The single save call `fig.savefig(out, dpi=DPI, ...)` (line 1040). -/
def saveCall : SaveFig := ⟨out, DPI, figw, figh⟩

/-- Source: `print(f'Saved: {out}')` (line 1043). -/
def savedLine : String := "Saved: " ++ out

/-- Source: `print(f'Size: {48*DPI} x {34*DPI} px = {48}x{34} in @ {DPI} DPI')`
(line 1044). -/
def sizeLine : String :=
  "Size: " ++ toString (48 * DPI) ++ " x " ++ toString (34 * DPI) ++
  " px = " ++ toString 48 ++ "x" ++ toString 34 ++ " in @ " ++
  toString DPI ++ " DPI"

/-- Observable I/O trace of a complete run. -/
def ioTrace : List IOEvent :=
  [.fsWrite out, .consolePrint savedLine, .consolePrint sizeLine]

/-- Source: `Lx_loop = 0.70` (line 382): loop half-length along X. -/
noncomputable def Lx_loop : ℝ := 0.70

/-- Source: `Ly_loop = 0.40` (line 383): loop half-width along Y. -/
noncomputable def Ly_loop : ℝ := 0.40

/-- Source: `R_corner = 0.05` (line 384): rounded corner radius. -/
noncomputable def R_corner : ℝ := 0.05

/-- Source: `loop_pts = rect_loop_pts(Lx_loop, Ly_loop, R_corner)` (line 434),
with the default `n_corner = 12`. -/
noncomputable def loop_pts : List (ℝ × ℝ) :=
  rect_loop_pts Lx_loop Ly_loop R_corner 12

/-- The loop coordinate array of a run, as a function of the (unread)
run environment. -/
noncomputable def runCoords (_i : RunInput) : List (ℝ × ℝ) := loop_pts

/-- The run as a function of the (unread) run environment. -/
def run (_i : RunInput) : List IOEvent × SaveFig := (ioTrace, saveCall)

/-- The run with the plotting library's save outcome made explicit. -/
def runE (save : Except String Unit) : Except String (List IOEvent) :=
  scriptTail ioTrace save

end GenOpt

/-- C1: each of the five scripts performs exactly one file write in a
complete run, to the fixed hardcoded path bound to its variable `out`
(one savefig call per script); no other file is created or written. -/
theorem C1_single_savefig_to_fixed_path :
    writesOf Gen20m.ioTrace = [.fsWrite Gen20m.out] ∧
    writesOf Gen40m.ioTrace = [.fsWrite Gen40m.out] ∧
    writesOf GenTriband.ioTrace = [.fsWrite GenTriband.out] ∧
    writesOf Gen8040.ioTrace = [.fsWrite Gen8040.out] ∧
    writesOf GenOpt.ioTrace = [.fsWrite GenOpt.out] ∧
    Gen20m.out = "C:\\Users\\Jakkrit\\.local\\bin\\NVIS_20m_Car_Roof_3D.jpg" ∧
    Gen40m.out = "C:\\Users\\Jakkrit\\.local\\bin\\NVIS_40m_Car_Roof_3D.jpg" ∧
    GenTriband.out =
      "C:\\Users\\Jakkrit\\.local\\bin\\NVIS_80_40_20m_Triband_Sedan_3D.jpg" ∧
    Gen8040.out =
      "C:\\Users\\Jakkrit\\.local\\bin\\NVIS_80_40m_Car_Roof_3D.jpg" ∧
    GenOpt.out =
      "C:\\Users\\Jakkrit\\.local\\bin\\NVIS_80_40m_Optimized_Sedan_3D.jpg" := by
  refine ⟨rfl, rfl, rfl, rfl, rfl, rfl, rfl, rfl, rfl, rfl⟩

/-- C2: every script is deterministic and closed to input: two runs under
any two run environments (command-line arguments, standard input,
configuration) produce identical I/O traces and save parameters, because
no script reads any of them. -/
theorem C2_deterministic_closed_to_input (i j : RunInput) :
    Gen20m.run i = Gen20m.run j ∧
    Gen40m.run i = Gen40m.run j ∧
    GenTriband.run i = GenTriband.run j ∧
    Gen8040.run i = Gen8040.run j ∧
    GenOpt.run i = GenOpt.run j ∧
    Gen20m.runCoords i = Gen20m.runCoords j ∧
    GenOpt.runCoords i = GenOpt.runCoords j :=
  ⟨rfl, rfl, rfl, rfl, rfl, rfl, rfl⟩

/-- C4: in every script the output file is opened only at the end: no I/O
action precedes the save, the save is the only file-system action of the
run, and every event after it is a console print (the status lines),
after which the script exits. -/
theorem C4_save_is_last_fs_action :
    (preWrite Gen20m.ioTrace = [] ∧
      (postWrite Gen20m.ioTrace).all IOEvent.isPrint = true ∧
      (writesOf Gen20m.ioTrace).length = 1) ∧
    (preWrite Gen40m.ioTrace = [] ∧
      (postWrite Gen40m.ioTrace).all IOEvent.isPrint = true ∧
      (writesOf Gen40m.ioTrace).length = 1) ∧
    (preWrite GenTriband.ioTrace = [] ∧
      (postWrite GenTriband.ioTrace).all IOEvent.isPrint = true ∧
      (writesOf GenTriband.ioTrace).length = 1) ∧
    (preWrite Gen8040.ioTrace = [] ∧
      (postWrite Gen8040.ioTrace).all IOEvent.isPrint = true ∧
      (writesOf Gen8040.ioTrace).length = 1) ∧
    (preWrite GenOpt.ioTrace = [] ∧
      (postWrite GenOpt.ioTrace).all IOEvent.isPrint = true ∧
      (writesOf GenOpt.ioTrace).length = 1) := by
  refine ⟨⟨rfl, rfl, rfl⟩, ⟨rfl, rfl, rfl⟩, ⟨rfl, rfl, rfl⟩,
    ⟨rfl, rfl, rfl⟩, ⟨rfl, rfl, rfl⟩⟩

/-- C5: no script installs any error handler: a plotting-library error at
the save step propagates uncaught, and the run then produces neither the
output artifact nor the status lines; when the save succeeds, the full
trace is produced. -/
theorem C5_no_error_handling (e : String) :
    Gen20m.runE (.error e) = .error e ∧
    Gen40m.runE (.error e) = .error e ∧
    GenTriband.runE (.error e) = .error e ∧
    Gen8040.runE (.error e) = .error e ∧
    GenOpt.runE (.error e) = .error e ∧
    Gen20m.runE (.ok ()) = .ok Gen20m.ioTrace ∧
    Gen40m.runE (.ok ()) = .ok Gen40m.ioTrace ∧
    GenTriband.runE (.ok ()) = .ok GenTriband.ioTrace ∧
    Gen8040.runE (.ok ()) = .ok Gen8040.ioTrace ∧
    GenOpt.runE (.ok ()) = .ok GenOpt.ioTrace :=
  ⟨rfl, rfl, rfl, rfl, rfl, rfl, rfl, rfl, rfl, rfl⟩

/-- C6: after saving, each script prints exactly two status lines: a
`Saved: <path>` line whose path is the script's fixed output path, then a
`Size: ...` line; no other console output is produced. -/
theorem C6_exactly_two_status_lines :
    printsOf Gen20m.ioTrace = ["Saved: " ++ Gen20m.out, Gen20m.sizeLine] ∧
    printsOf Gen40m.ioTrace = ["Saved: " ++ Gen40m.out, Gen40m.sizeLine] ∧
    printsOf GenTriband.ioTrace =
      ["Saved: " ++ GenTriband.out, GenTriband.sizeLine] ∧
    printsOf Gen8040.ioTrace = ["Saved: " ++ Gen8040.out, Gen8040.sizeLine] ∧
    printsOf GenOpt.ioTrace = ["Saved: " ++ GenOpt.out, GenOpt.sizeLine] ∧
    Gen20m.sizeLine.take 5 = "Size:" ∧
    Gen40m.sizeLine.take 5 = "Size:" ∧
    GenTriband.sizeLine.take 5 = "Size:" ∧
    Gen8040.sizeLine.take 5 = "Size:" ∧
    GenOpt.sizeLine.take 5 = "Size:" := by
  refine ⟨rfl, rfl, rfl, rfl, rfl, ?_, ?_, ?_, ?_, ?_⟩ <;> decide

theorem getLast?_append_right {α : Type} (l₁ l₂ : List α) (h : l₂ ≠ []) :
    (l₁ ++ l₂).getLast? = l₂.getLast? := by
  obtain ⟨x, hx⟩ : ∃ x, l₂.getLast? = some x :=
    Option.isSome_iff_exists.mp (List.getLast?_isSome.mpr h)
  rw [List.getLast?_append, hx]
  rfl

theorem foldl_snoc_eq_append_map {β : Type} (g : β → AxItem) :
    ∀ (l : List β) (a : List AxItem),
      l.foldl (fun st b => st ++ [g b]) a = a ++ l.map g := by
  intro l
  induction l with
  | nil => intro a; simp
  | cons b t ih =>
    intro a
    simp only [List.foldl_cons, List.map_cons, ih]
    simp

theorem box3d_eq (a : List AxItem) (cx cy cz hw hd hh : ℝ)
    (cols : List String) (ec : String) (al : ℝ) (zo : ℤ) :
    box3d a cx cy cz hw hd hh cols ec al zo =
      a ++ ((boxFaces cx cy cz hw hd hh).zip cols).map
        (fun p => .poly [p.1] p.2 ec al 1.0 zo) := by
  simp only [box3d, qpoly]
  exact foldl_snoc_eq_append_map _ _ _

theorem draw_box_eq (a : List AxItem) (cx cy cz hw hd hh : ℝ)
    (colors : List String) (ec : String) (alpha : ℝ) (zo : ℤ) :
    draw_box a cx cy cz hw hd hh colors ec alpha zo =
      a ++ ((boxFaces cx cy cz hw hd hh).zip colors).map
        (fun p => .poly [p.1] p.2 ec alpha 1.2 zo) := by
  simp only [draw_box]
  exact foldl_snoc_eq_append_map _ _ _

theorem mem_boxFaces_corner (cx cy cz hw hd hh : ℝ)
    (f : List (ℝ × ℝ × ℝ)) (hf : f ∈ boxFaces cx cy cz hw hd hh)
    (v : ℝ × ℝ × ℝ) (hv : v ∈ f) : IsBoxCorner cx cy cz hw hd hh v := by
  simp only [boxFaces, List.mem_cons, List.not_mem_nil, or_false] at hf
  rcases hf with rfl | rfl | rfl | rfl | rfl | rfl <;>
    simp only [List.mem_cons, List.not_mem_nil, or_false] at hv <;>
    rcases hv with rfl | rfl | rfl | rfl <;>
    simp [IsBoxCorner]

/-- C7: the drawing helpers only append to the axes state and embed their
point and vertex arguments unchanged in what they append: `draw_tube`
(gen_nvis_20m_car_roof.py) and `tube` (gen_nvis_80_40m_optimized.py) add
only polylines carrying exactly the argument arrays `px, py, pz`, and
`qpoly` adds exactly the one-face polygon on the argument vertex list
`v`; the items already on the axes are untouched. -/
theorem C7_draw_helpers_points_unchanged
    (a : List AxItem) (px py pz : List ℝ) (c : String) (lw : ℝ)
    (hc : Option String) (al : ℝ) (zo : ℤ) (v : List (ℝ × ℝ × ℝ))
    (fc ec : String) (plw : ℝ) :
    ((draw_tube a px py pz c lw hc al zo).take a.length = a ∧
      ∀ it ∈ (draw_tube a px py pz c lw hc al zo).drop a.length,
        it.linePts = some (px, py, pz)) ∧
    ((tube a px py pz c lw hc al zo).take a.length = a ∧
      ∀ it ∈ (tube a px py pz c lw hc al zo).drop a.length,
        it.linePts = some (px, py, pz)) ∧
    ((qpoly a v fc ec al plw zo).take a.length = a ∧
      ∀ it ∈ (qpoly a v fc ec al plw zo).drop a.length,
        it.polyFaces = [v]) := by
  refine ⟨?_, ?_, ?_⟩
  · cases hc with
    | none =>
      refine ⟨?_, ?_⟩
      · simp [draw_tube, axPlot]
      · intro it hit
        rw [show draw_tube a px py pz c lw none al zo
              = a ++ [.line px py pz c lw al zo] from rfl,
            List.drop_left] at hit
        simp only [List.mem_cons, List.not_mem_nil, or_false] at hit
        subst hit
        rfl
    | some h =>
      refine ⟨?_, ?_⟩
      · rw [show draw_tube a px py pz c lw (some h) al zo
              = a ++ [.line px py pz c lw al zo,
                      .line px py pz h (lw * 0.45) 0.35 (zo + 1)]
            from by simp [draw_tube, axPlot]]
        exact List.take_left a _
      · intro it hit
        rw [show draw_tube a px py pz c lw (some h) al zo
              = a ++ [.line px py pz c lw al zo,
                      .line px py pz h (lw * 0.45) 0.35 (zo + 1)]
            from by simp [draw_tube, axPlot],
            List.drop_left] at hit
        simp only [List.mem_cons, List.not_mem_nil, or_false] at hit
        rcases hit with rfl | rfl <;> rfl
  · cases hc with
    | none =>
      refine ⟨?_, ?_⟩
      · simp [tube, axPlot]
      · intro it hit
        rw [show tube a px py pz c lw none al zo
              = a ++ [.line px py pz c lw al zo] from rfl,
            List.drop_left] at hit
        simp only [List.mem_cons, List.not_mem_nil, or_false] at hit
        subst hit
        rfl
    | some h =>
      refine ⟨?_, ?_⟩
      · rw [show tube a px py pz c lw (some h) al zo
              = a ++ [.line px py pz c lw al zo,
                      .line px py pz h (lw * 0.4) 0.35 (zo + 1)]
            from by simp [tube, axPlot]]
        exact List.take_left a _
      · intro it hit
        rw [show tube a px py pz c lw (some h) al zo
              = a ++ [.line px py pz c lw al zo,
                      .line px py pz h (lw * 0.4) 0.35 (zo + 1)]
            from by simp [tube, axPlot],
            List.drop_left] at hit
        simp only [List.mem_cons, List.not_mem_nil, or_false] at hit
        rcases hit with rfl | rfl <;> rfl
  · refine ⟨?_, ?_⟩
    · simp [qpoly]
    · intro it hit
      rw [show qpoly a v fc ec al plw zo
            = a ++ [.poly [v] fc ec al plw zo] from rfl,
          List.drop_left] at hit
      simp only [List.mem_cons, List.not_mem_nil, or_false] at hit
      subst hit
      rfl

/-- C9: every face built by `draw_box`/`box3d` has all four vertices among
the eight corners of the axis-aligned box centred at `(cx, cy, cz)` with
half-extents `(hw, hd, hh)`, and the number of faces actually added to the
axes is `min 6 (length of the colour list)`, because the six faces are
zipped with the colours. -/
theorem C9_box_faces_corners_and_zip_count
    (a : List AxItem) (cx cy cz hw hd hh : ℝ) (cols : List String)
    (ec : String) (al : ℝ) (zo : ℤ) :
    (((box3d a cx cy cz hw hd hh cols ec al zo).drop a.length).length
        = min 6 cols.length ∧
      ∀ it ∈ (box3d a cx cy cz hw hd hh cols ec al zo).drop a.length,
        ∀ f ∈ it.polyFaces, ∀ v ∈ f, IsBoxCorner cx cy cz hw hd hh v) ∧
    (((draw_box a cx cy cz hw hd hh cols ec al zo).drop a.length).length
        = min 6 cols.length ∧
      ∀ it ∈ (draw_box a cx cy cz hw hd hh cols ec al zo).drop a.length,
        ∀ f ∈ it.polyFaces, ∀ v ∈ f, IsBoxCorner cx cy cz hw hd hh v) := by
  have hlen : (boxFaces cx cy cz hw hd hh).length = 6 := by
    simp [boxFaces]
  refine ⟨⟨?_, ?_⟩, ⟨?_, ?_⟩⟩
  · rw [box3d_eq, List.drop_left, List.length_map, List.length_zip, hlen]
  · intro it hit f hf vv hv
    rw [box3d_eq, List.drop_left] at hit
    obtain ⟨⟨g, _c⟩, hmem, rfl⟩ := List.mem_map.mp hit
    simp only [AxItem.polyFaces, List.mem_cons, List.not_mem_nil, or_false]
      at hf
    exact mem_boxFaces_corner cx cy cz hw hd hh g
      (List.of_mem_zip hmem).1 vv (hf ▸ hv)
  · rw [draw_box_eq, List.drop_left, List.length_map, List.length_zip, hlen]
  · intro it hit f hf vv hv
    rw [draw_box_eq, List.drop_left] at hit
    obtain ⟨⟨g, _c⟩, hmem, rfl⟩ := List.mem_map.mp hit
    simp only [AxItem.polyFaces, List.mem_cons, List.not_mem_nil, or_false]
      at hf
    exact mem_boxFaces_corner cx cy cz hw hd hh g
      (List.of_mem_zip hmem).1 vv (hf ▸ hv)

theorem foldl_qpoly_eq_append_map {β : Type} (f : β → List (ℝ × ℝ × ℝ))
    (fc ec : String) (al lw : ℝ) (zo : ℤ) (l : List β) (a : List AxItem) :
    l.foldl (fun st b => qpoly st (f b) fc ec al lw zo) a
      = a ++ l.map (fun b => AxItem.poly [f b] fc ec al lw zo) := by
  simp only [qpoly]
  exact foldl_snoc_eq_append_map _ l a

theorem cylinder_eq (a : List AxItem) (cx cy zb zt r : ℝ) (n : ℕ)
    (fc ec : String) (al : ℝ) (zo : ℤ) :
    cylinder a cx cy zb zt r n fc ec al zo =
      a ++ ((List.range n).map fun i =>
          AxItem.poly [cylSideFace cx cy zb zt r n i] fc ec al 0.5 zo) ++
        [AxItem.poly [cylCapFace cx cy zt r n] fc ec al 1.0 (zo + 1)] := by
  simp only [cylinder]
  rw [foldl_qpoly_eq_append_map]
  simp [cylSideFace, cylCapFace, qpoly, List.append_assoc]

theorem on_circle_point (cx cy r : ℝ) (hr : 0 ≤ r) (θ z : ℝ) :
    IsOnCircle cx cy r (cx + r * Real.cos θ, cy + r * Real.sin θ, z) := by
  unfold IsOnCircle
  have hcs := Real.cos_sq_add_sin_sq θ
  have h : (cx + r * Real.cos θ - cx) ^ 2 + (cy + r * Real.sin θ - cy) ^ 2
      = r ^ 2 := by linear_combination r ^ 2 * hcs
  simp only []
  rw [h, Real.sqrt_sq hr]

theorem cylCapFace_closed (cx cy zt r : ℝ) (n : ℕ) (hn : 1 ≤ n) :
    (cylCapFace cx cy zt r n).head? = (cylCapFace cx cy zt r n).getLast? := by
  have h1 : ¬ (n + 1 ≤ 1) := by omega
  have hne : (n : ℝ) ≠ 0 := Nat.cast_ne_zero.mpr (by omega)
  have hhead : (cylCapFace cx cy zt r n).head?
      = some (cx + r * Real.cos 0, cy + r * Real.sin 0, zt) := by
    rw [cylCapFace, linspace, List.map_map, List.range_succ_eq_map]
    simp only [List.map_cons, List.head?_cons, Function.comp_apply, h1,
      if_false]
    norm_num
  have hlast : (cylCapFace cx cy zt r n).getLast?
      = some (cx + r * Real.cos (2 * π), cy + r * Real.sin (2 * π), zt) := by
    rw [cylCapFace, linspace, List.map_map, List.range_succ]
    rw [List.map_append]
    simp only [List.map_cons, List.map_nil]
    rw [List.getLast?_concat]
    simp only [Function.comp_apply, h1, if_false]
    rw [show (0 : ℝ) + (2 * π - 0) * (n : ℝ) / ((((n + 1 : ℕ)) : ℝ) - 1)
        = 2 * π from by push_cast; field_simp]
  rw [hhead, hlast]
  simp [Real.cos_two_pi, Real.sin_two_pi]

/-- C10: for every `n ≥ 1` and radius `r ≥ 0`, the `cylinder` helper adds
exactly `n` side faces plus one top cap; every side-face vertex lies at
XY-distance `r` from `(cx, cy)` at height `zb` or `zt`; the top cap is a
closed `(n+1)`-point polygon at height `zt` on the same circle whose
first and last vertices coincide (`theta` spans `0` to `2*pi`
inclusive). -/
theorem C10_cylinder_spec (a : List AxItem) (cx cy zb zt r : ℝ) (n : ℕ)
    (fc ec : String) (al : ℝ) (zo : ℤ) (hn : 1 ≤ n) (hr : 0 ≤ r) :
    CylSpec a cx cy zb zt r n fc ec al zo := by
  have hdrop : (cylinder a cx cy zb zt r n fc ec al zo).drop a.length
      = ((List.range n).map fun i =>
          AxItem.poly [cylSideFace cx cy zb zt r n i] fc ec al 0.5 zo) ++
        [AxItem.poly [cylCapFace cx cy zt r n] fc ec al 1.0 (zo + 1)] := by
    rw [cylinder_eq, List.append_assoc, List.drop_left]
  have hXlen : ((List.range n).map fun i =>
      AxItem.poly [cylSideFace cx cy zb zt r n i] fc ec al 0.5 zo).length
      = n := by simp
  refine ⟨?_, ?_, ?_, ?_⟩
  · rw [hdrop]; simp
  · intro it hit f hf vv hv
    rw [hdrop, List.take_left' hXlen] at hit
    obtain ⟨i, hi, rfl⟩ := List.mem_map.mp hit
    simp only [AxItem.polyFaces, List.mem_cons, List.not_mem_nil, or_false]
      at hf
    subst hf
    simp only [cylSideFace, List.mem_cons, List.not_mem_nil, or_false] at hv
    rcases hv with rfl | rfl | rfl | rfl
    · exact ⟨on_circle_point cx cy r hr _ _, Or.inl rfl⟩
    · exact ⟨on_circle_point cx cy r hr _ _, Or.inl rfl⟩
    · exact ⟨on_circle_point cx cy r hr _ _, Or.inr rfl⟩
    · exact ⟨on_circle_point cx cy r hr _ _, Or.inr rfl⟩
  · rw [hdrop, List.drop_left' hXlen]; rfl
  · intro it hit f hf
    rw [hdrop, List.drop_left' hXlen] at hit
    simp only [List.mem_cons, List.not_mem_nil, or_false] at hit
    subst hit
    simp only [AxItem.polyFaces, List.mem_cons, List.not_mem_nil, or_false]
      at hf
    subst hf
    refine ⟨?_, ?_, cylCapFace_closed cx cy zt r n hn⟩
    · intro vv hv
      obtain ⟨t, ht, rfl⟩ := List.mem_map.mp hv
      exact ⟨on_circle_point cx cy r hr _ _, rfl⟩
    · simp [cylCapFace, linspace]

/-- Witness for C10 at a concrete input: the empty axes, a unit-radius
cylinder with 2 sides between heights 0 and 1 centred at the origin. -/
theorem C10_cylinder_spec_witness :
    (1 ≤ 2 ∧ (0 : ℝ) ≤ 1) ∧ CylSpec [] 0 0 0 1 1 2 "#888" "#222" 0.85 12 :=
  ⟨⟨by decide, by norm_num⟩,
    C10_cylinder_spec [] 0 0 0 1 1 2 "#888" "#222" 0.85 12
      (by decide) (by norm_num)⟩

theorem rect_loop_pts_length (lx ly rc : ℝ) (n : ℕ) :
    (rect_loop_pts lx ly rc n).length = 6 + 4 * n := by
  simp [rect_loop_pts, linspace]
  ring

theorem rect_loop_pts_head (lx ly rc : ℝ) (n : ℕ) :
    (rect_loop_pts lx ly rc n).head? = some (gap_len / 2, ly) := by
  rfl

theorem rect_loop_pts_last (lx ly rc : ℝ) (n : ℕ) :
    (rect_loop_pts lx ly rc n).getLast? = some (-gap_len / 2, ly) := by
  rw [rect_loop_pts, List.getLast?_concat]

theorem rect_loop_pts_bounds (lx ly rc : ℝ) (n : ℕ)
    (_h0x : 0 < lx) (_h0y : 0 < ly) (h0r : 0 < rc) (hrx : rc < lx)
    (hry : rc < ly) (hgap : gap_len / 2 ≤ lx) :
    ∀ p ∈ rect_loop_pts lx ly rc n,
      -lx ≤ p.1 ∧ p.1 ≤ lx ∧ -ly ≤ p.2 ∧ p.2 ≤ ly := by
  have hg : (0:ℝ) < gap_len := by norm_num [gap_len]
  intro p hp
  simp only [rect_loop_pts, List.mem_append, List.mem_cons, List.mem_map,
    List.not_mem_nil, or_false, List.mem_singleton] at hp
  rcases hp with ((((((((rfl | rfl) | ⟨t, ht, rfl⟩) | rfl) | ⟨t, ht, rfl⟩) |
      rfl) | ⟨t, ht, rfl⟩) | rfl) | ⟨t, ht, rfl⟩) | rfl <;>
    refine ⟨?_, ?_, ?_, ?_⟩ <;>
    simp only [] <;>
    first
      | linarith
      | nlinarith [Real.neg_one_le_cos t, Real.cos_le_one t,
          Real.neg_one_le_sin t, Real.sin_le_one t]

/-- C8 (amended): for all positive `lx, ly, rc` with `rc < lx`, `rc < ly`
and `gap_len/2 ≤ lx`, `rect_loop_pts lx ly rc n_corner` returns exactly
`6 + 4 * n_corner` points, whose first point is `(gap_len/2, ly)` and
whose last is `(-gap_len/2, ly)` (the gap at the +Y centre, using the
module constant `gap_len`), and every returned point `(x, y)` satisfies
`-lx ≤ x ≤ lx` and `-ly ≤ y ≤ ly`. -/
theorem C8_rect_loop_pts_amended (lx ly rc : ℝ) (n_corner : ℕ)
    (h0x : 0 < lx) (h0y : 0 < ly) (h0r : 0 < rc) (hrx : rc < lx)
    (hry : rc < ly) (hgap : gap_len / 2 ≤ lx) :
    RectLoopSpec lx ly rc n_corner :=
  ⟨rect_loop_pts_length lx ly rc n_corner,
   rect_loop_pts_head lx ly rc n_corner,
   rect_loop_pts_last lx ly rc n_corner,
   rect_loop_pts_bounds lx ly rc n_corner h0x h0y h0r hrx hry hgap⟩

/-- Witness for the amended C8 at the concrete input
`lx = ly = 1, rc = 1/2, n_corner = 12`. -/
theorem C8_rect_loop_pts_witness :
    ((0:ℝ) < 1 ∧ (0:ℝ) < 1 ∧ (0:ℝ) < 1/2 ∧ (1/2:ℝ) < 1 ∧ (1/2:ℝ) < 1 ∧
      gap_len / 2 ≤ (1:ℝ)) ∧ RectLoopSpec 1 1 (1/2) 12 :=
  ⟨⟨by norm_num, by norm_num, by norm_num, by norm_num, by norm_num,
     by norm_num [gap_len]⟩,
   C8_rect_loop_pts_amended 1 1 (1/2) 12 (by norm_num) (by norm_num)
     (by norm_num) (by norm_num) (by norm_num) (by norm_num [gap_len])⟩

/-- C8 counterexample: the claim as stated is false on the code.  At
`lx = ly = 1, rc = 1/2, n_corner = 12` (all hypotheses of the claim hold)
`rect_loop_pts` returns `6 + 4*12 = 54` points, not `8 + 4*12 = 56`; and
at `lx = 3/100, ly = 1, rc = 1/100` (hypotheses hold as well) the first
returned point `(gap_len/2, ly) = (1/25, 1)` violates the claimed bound
`x ≤ lx`. -/
theorem C8_rect_loop_pts_counterexample :
    (((0:ℝ) < 1 ∧ (0:ℝ) < 1/2 ∧ (1/2:ℝ) < 1) ∧
      (rect_loop_pts 1 1 (1/2) 12).length ≠ 8 + 4 * 12) ∧
    (((0:ℝ) < 3/100 ∧ (0:ℝ) < 1 ∧ (0:ℝ) < 1/100 ∧ (1/100:ℝ) < 3/100 ∧
        (1/100:ℝ) < 1) ∧
      (gap_len / 2, (1:ℝ)) ∈ rect_loop_pts (3/100) 1 (1/100) 12 ∧
      ¬ ((gap_len / 2, (1:ℝ)).1 ≤ 3/100)) := by
  refine ⟨⟨⟨by norm_num, by norm_num, by norm_num⟩, ?_⟩,
    ⟨by norm_num, ?_, ?_⟩⟩
  · rw [rect_loop_pts_length]
    norm_num
  · simp [rect_loop_pts]
  · norm_num [gap_len]
